import Mathlib

/-!
Verification of the FIM (file integrity monitor) core: a shallow embedding
of `monitor.py`, `initialize.py`, `ai_modules/risk_scorer.py` and
`utils/email_alert.py`, with theorems settling the spec's claims about the
snapshot/diff/score/alert pipeline.
-/

namespace FIM

/-- A per-file fingerprint record, as stored in baseline/current snapshots
(`get_file_metadata` output: hash, size, permissions, mtime). -/
structure FileMeta where
  hash : String
  size : Nat
  permissions : String
  mtime : Int
deriving DecidableEq, Repr

/-- A Snapshot: the dict mapping relative path to metadata, modelled as an
association list in insertion order. -/
abbrev Snapshot := List (String × FileMeta)

/-- Dict lookup (`snap[path]` / `path in snap`): first matching entry. -/
def slookup (s : Snapshot) (p : String) : Option FileMeta :=
  match s with
  | [] => none
  | (q, m) :: rest => if q = p then some m else slookup rest p

/-- The key list of a snapshot, in iteration order. -/
def skeys (s : Snapshot) : List String := s.map Prod.fst

theorem slookup_isSome_of_mem_skeys {s : Snapshot} {p : String}
    (h : p ∈ skeys s) : ∃ m, slookup s p = some m := by
  induction s with
  | nil => simp [skeys] at h
  | cons e rest ih =>
    by_cases hq : e.1 = p
    · exact ⟨e.2, by simp [slookup, hq]⟩
    · have : p ∈ skeys rest := by
        rcases (by simpa [skeys] using h) with h1 | h1
        · exact absurd h1.symm hq
        · simpa [skeys] using h1
      rcases ih this with ⟨m, hm⟩
      exact ⟨m, by simp [slookup, hq, hm]⟩

theorem mem_skeys_of_slookup {s : Snapshot} {p : String} {m : FileMeta}
    (h : slookup s p = some m) : p ∈ skeys s := by
  induction s with
  | nil => simp [slookup] at h
  | cons e rest ih =>
    by_cases hq : e.1 = p
    · simp [skeys, hq.symm]
    · simp only [slookup, hq, if_false] at h
      have := ih h
      simp [skeys] at this ⊢
      exact Or.inr this

/-- `compare_states(baseline, current)` from monitor.py: one pass over the
baseline keys collecting deleted (absent from current) and modified
(present with different hash), one pass over the current keys collecting
new (absent from baseline). Returns (modified, deleted, new). -/
def compare_states (baseline current : Snapshot) :
    List String × List String × List String :=
  let modified := (skeys baseline).filter fun p =>
    match slookup current p with
    | none => false
    | some c =>
      match slookup baseline p with
      | none => false
      | some b => b.hash != c.hash
  let deleted := (skeys baseline).filter fun p => (slookup current p).isNone
  let new := (skeys current).filter fun p => (slookup baseline p).isNone
  (modified, deleted, new)

theorem not_mem_skeys_of_slookup_none {s : Snapshot} {p : String}
    (h : slookup s p = none) : p ∉ skeys s := by
  intro hmem
  rcases slookup_isSome_of_mem_skeys hmem with ⟨m, hm⟩
  rw [h] at hm
  exact Option.noConfusion hm

/-- Membership in the modified list of `compare_states`. -/
theorem mem_modified_iff (A B : Snapshot) (p : String) :
    p ∈ (compare_states A B).1 ↔
      p ∈ skeys A ∧ ∃ a b, slookup A p = some a ∧ slookup B p = some b ∧
        a.hash ≠ b.hash := by
  simp only [compare_states, List.mem_filter]
  constructor
  · rintro ⟨hk, hcond⟩
    refine ⟨hk, ?_⟩
    cases hB : slookup B p with
    | none => rw [hB] at hcond; simp at hcond
    | some c =>
      cases hA : slookup A p with
      | none => rw [hB, hA] at hcond; simp at hcond
      | some b =>
        rw [hB, hA] at hcond
        simp only [bne_iff_ne, ne_eq, decide_eq_true_eq] at hcond
        exact ⟨b, c, rfl, rfl, by simpa using hcond⟩
  · rintro ⟨hk, a, b, hA, hB, hne⟩
    refine ⟨hk, ?_⟩
    rw [hB, hA]
    simpa using hne

/-- Membership in the deleted list of `compare_states`. -/
theorem mem_deleted_iff (A B : Snapshot) (p : String) :
    p ∈ (compare_states A B).2.1 ↔ p ∈ skeys A ∧ slookup B p = none := by
  simp only [compare_states, List.mem_filter, Option.isNone_iff_eq_none]

/-- Membership in the new list of `compare_states`. -/
theorem mem_new_iff (A B : Snapshot) (p : String) :
    p ∈ (compare_states A B).2.2 ↔ p ∈ skeys B ∧ slookup A p = none := by
  simp only [compare_states, List.mem_filter, Option.isNone_iff_eq_none]

/-- C2: for every pair of snapshots A (baseline) and B (current), the three
collections returned by `compare_states` (modified, deleted, new) are
pairwise disjoint, every path in modified or deleted is a key of A, and
every path in new is a key of B that is not a key of A. -/
theorem changeset_partition_invariant (A B : Snapshot) :
    (∀ p, p ∈ (compare_states A B).1 → p ∉ (compare_states A B).2.1) ∧
    (∀ p, p ∈ (compare_states A B).1 → p ∉ (compare_states A B).2.2) ∧
    (∀ p, p ∈ (compare_states A B).2.1 → p ∉ (compare_states A B).2.2) ∧
    (∀ p, p ∈ (compare_states A B).1 → p ∈ skeys A) ∧
    (∀ p, p ∈ (compare_states A B).2.1 → p ∈ skeys A) ∧
    (∀ p, p ∈ (compare_states A B).2.2 → p ∈ skeys B ∧ p ∉ skeys A) := by
  refine ⟨?_, ?_, ?_, ?_, ?_, ?_⟩
  · intro p hm hd
    rcases (mem_modified_iff A B p).1 hm with ⟨_, a, b, _, hB, _⟩
    rcases (mem_deleted_iff A B p).1 hd with ⟨_, hBnone⟩
    rw [hBnone] at hB
    exact Option.noConfusion hB
  · intro p hm hn
    rcases (mem_modified_iff A B p).1 hm with ⟨_, a, b, hA, _, _⟩
    rcases (mem_new_iff A B p).1 hn with ⟨_, hAnone⟩
    rw [hAnone] at hA
    exact Option.noConfusion hA
  · intro p hd hn
    rcases (mem_deleted_iff A B p).1 hd with ⟨hk, _⟩
    rcases (mem_new_iff A B p).1 hn with ⟨_, hAnone⟩
    exact not_mem_skeys_of_slookup_none hAnone hk
  · intro p hm
    exact ((mem_modified_iff A B p).1 hm).1
  · intro p hd
    exact ((mem_deleted_iff A B p).1 hd).1
  · intro p hn
    rcases (mem_new_iff A B p).1 hn with ⟨hk, hAnone⟩
    exact ⟨hk, not_mem_skeys_of_slookup_none hAnone⟩

/-- C3: for every pair of snapshots, a path present in both is reported
modified iff the hash fields differ; equal hashes with differing size,
mtime or permissions never produce a modification; and the concrete
scenario baseline {a.txt ↦ hash X} vs current {a.txt ↦ hash Y, b.txt ↦
hash Z} yields modified=[a.txt], deleted=[], new=[b.txt]. -/
theorem modification_is_hash_only :
    (∀ (A B : Snapshot) (p : String) (a b : FileMeta),
        slookup A p = some a → slookup B p = some b →
        (p ∈ (compare_states A B).1 ↔ a.hash ≠ b.hash)) ∧
    (∀ (A B : Snapshot) (p : String) (a b : FileMeta),
        slookup A p = some a → slookup B p = some b → a.hash = b.hash →
        p ∉ (compare_states A B).1) ∧
    compare_states [("a.txt", ⟨"X", 10, "644", 100⟩)]
        [("a.txt", ⟨"Y", 10, "644", 100⟩), ("b.txt", ⟨"Z", 3, "600", 7⟩)] =
      (["a.txt"], [], ["b.txt"]) := by
  have key : ∀ (A B : Snapshot) (p : String) (a b : FileMeta),
      slookup A p = some a → slookup B p = some b →
      (p ∈ (compare_states A B).1 ↔ a.hash ≠ b.hash) := by
    intro A B p a b hA hB
    rw [mem_modified_iff]
    constructor
    · rintro ⟨_, a', b', hA', hB', hne⟩
      rw [hA] at hA'; rw [hB] at hB'
      cases hA'; cases hB'
      exact hne
    · intro hne
      exact ⟨mem_skeys_of_slookup hA, a, b, hA, hB, hne⟩
  refine ⟨key, ?_, by decide⟩
  intro A B p a b hA hB heq hm
  exact ((key A B p a b hA hB).1 hm) heq

/-! ## Risk scorer (ai_modules/risk_scorer.py), rule-based path.
Python floats are modelled by exact rationals; every constant in the
source is an exactly representable decimal. -/

/-- Substring test on char lists (Python's `pat in hay`). -/
def hasSub (pat : List Char) : List Char → Bool
  | [] => pat.isEmpty
  | c :: t => pat.isPrefixOf (c :: t) || hasSub pat t

/-- Python's `pat in hay` on strings. -/
def strContains (hay pat : String) : Bool :=
  hasSub pat.toList hay.toList

/-- Python's `str.lower()` (ASCII case fold, the only case the tables
and paths exercise). -/
def pytoLower (s : String) : String :=
  ⟨s.toList.map Char.toLower⟩

/-- Python's `str.endswith(suffix)`. -/
def strEndsWith (s suffix : String) : Bool :=
  suffix.toList.isSuffixOf s.toList

/-- Python's `str.startswith(pre)`. -/
def strStartsWith (s pre : String) : Bool :=
  pre.toList.isPrefixOf s.toList

/-- `os.path.basename`: the part after the last slash. -/
def pybasename (p : String) : String :=
  ⟨(p.toList.reverse.takeWhile (fun c => c ≠ '/')).reverse⟩

/-- The extension part of `os.path.splitext`: from the last dot of the
basename, provided some earlier character of the basename is not a dot
(so dotfiles like `.bashrc` have no extension). -/
def splitext_ext (p : String) : String :=
  let base_r := p.toList.reverse.takeWhile (fun c => c ≠ '/')
  match base_r.dropWhile (fun c => c ≠ '.') with
  | [] => ""
  | _ :: before_r =>
    if before_r.any (fun c => c ≠ '.') then
      ⟨'.' :: (base_r.takeWhile (fun c => c ≠ '.')).reverse⟩
    else ""

/-- The five risk-combination weights (`self.risk_weights`). -/
structure RiskWeights where
  file_type_risk : ℚ
  location_risk : ℚ
  time_risk : ℚ
  change_magnitude : ℚ
  user_behavior : ℚ
deriving DecidableEq, Repr

def risk_weights : RiskWeights :=
  { file_type_risk := 0.25
    location_risk := 0.20
    time_risk := 0.15
    change_magnitude := 0.20
    user_behavior := 0.20 }

/-- Default high-risk threshold (`self.risk_threshold`). -/
def risk_threshold : ℚ := 0.7

/-- `self.critical_patterns`, in dict insertion order: system_files,
config_files, executable_files, data_files, log_files. -/
def critical_patterns : List (List String × ℚ) :=
  [ (["/etc/", "/bin/", "/sbin/", "/usr/bin/", "/usr/sbin/"], 0.9),
    ([".conf", ".cfg", ".ini", "config"], 0.8),
    ([".exe", ".bat", ".sh", ".ps1", ".py"], 0.7),
    ([".db", ".sql", ".csv", ".json"], 0.6),
    ([".log", ".txt"], 0.3) ]

/-- `get_file_extension_risk`: static extension classification. -/
def get_file_extension_risk (file_path : String) : ℚ :=
  let ext := pytoLower (splitext_ext file_path)
  let high_risk_extensions := [".exe", ".bat", ".sh", ".ps1", ".dll", ".so"]
  let medium_risk_extensions := [".py", ".js", ".php", ".pl", ".rb"]
  let config_extensions := [".conf", ".cfg", ".ini", ".yml", ".yaml", ".json"]
  if ext ∈ high_risk_extensions then 0.9
  else if ext ∈ medium_risk_extensions then 0.7
  else if ext ∈ config_extensions then 0.6
  else 0.3

/-- `get_location_risk`: first matching category of `critical_patterns`
wins; default 0.3 for unmatched paths. -/
def get_location_risk (file_path : String) : ℚ :=
  let path_lower := pytoLower file_path
  match critical_patterns.find?
      (fun cat => cat.1.any (fun pat => strContains path_lower pat)) with
  | some cat => cat.2
  | none => 0.3

/-- `is_system_path` (note: no lowercasing here, unlike location risk). -/
def is_system_path (file_path : String) : Bool :=
  ["/etc/", "/bin/", "/sbin/", "/usr/", "/var/", "/sys/", "/proc/"].any
    (fun p => strContains file_path p)

/-- `categorize_file_size`. -/
def categorize_file_size (size : Nat) : Nat :=
  if size > 100 * 1024 * 1024 then 4
  else if size > 10 * 1024 * 1024 then 3
  else if size > 1024 * 1024 then 2
  else if size > 1024 then 1
  else 0

/-- `get_change_frequency`: fixed placeholder constant. -/
def get_change_frequency (_file_path : String) : ℚ := 0.1

/-- `get_time_since_last_change`: fixed placeholder constant. -/
def get_time_since_last_change (_file_path : String) : ℚ := 24.0

/-- `get_permission_risk`. -/
def get_permission_risk (permissions : String) : ℚ :=
  if strEndsWith permissions ("777") || strEndsWith permissions ("666") then 0.9
  else if strEndsWith permissions ("755") || strEndsWith permissions ("644") then 0.3
  else 0.5

/-- Wall-clock inputs of `extract_features` (`datetime.now()`): hour of
day and weekday index (Monday = 0). -/
structure Clock where
  hour : Nat
  weekday : Nat
deriving DecidableEq, Repr

/-- The feature dict built by `extract_features`; 0/1-valued ints used in
boolean position are modelled as Bool. -/
structure Features where
  file_extension_risk : ℚ
  location_risk : ℚ
  is_hidden_file : Bool
  is_system_path : Bool
  hour_of_change : Nat
  day_of_week : Nat
  is_weekend : Bool
  is_business_hours : Bool
  change_type_modified : Bool
  change_type_new : Bool
  change_type_deleted : Bool
  file_size : Nat
  size_category : Nat
  change_frequency : ℚ
  time_since_last_change : ℚ
  permission_risk : ℚ
deriving DecidableEq, Repr

/-- `extract_features(file_path, change_type, metadata)` at clock `now`. -/
def extract_features (file_path change_type : String) (metadata : FileMeta)
    (now : Clock) : Features :=
  { file_extension_risk := get_file_extension_risk file_path
    location_risk := get_location_risk file_path
    is_hidden_file := strStartsWith (pybasename file_path) (".")
    is_system_path := is_system_path file_path
    hour_of_change := now.hour
    day_of_week := now.weekday
    is_weekend := decide (5 ≤ now.weekday)
    is_business_hours := decide (9 ≤ now.hour ∧ now.hour ≤ 17)
    change_type_modified := change_type == "modified"
    change_type_new := change_type == "new"
    change_type_deleted := change_type == "deleted"
    file_size := metadata.size
    size_category := categorize_file_size metadata.size
    change_frequency := get_change_frequency file_path
    time_since_last_change := get_time_since_last_change file_path
    permission_risk := get_permission_risk metadata.permissions }

/-- `calculate_rule_based_risk`: weighted sum of the five sub-scores,
clipped to at most 1. -/
def calculate_rule_based_risk (features : Features) : ℚ :=
  let risk_score : ℚ := 0
  let risk_score := risk_score +
    features.file_extension_risk * risk_weights.file_type_risk
  let risk_score := risk_score +
    features.location_risk * risk_weights.location_risk
  let time_risk : ℚ := 0.3
  let time_risk := if features.is_business_hours then time_risk
    else time_risk + 0.4
  let time_risk := if features.is_weekend then time_risk + 0.3 else time_risk
  let risk_score := risk_score + min time_risk 1 * risk_weights.time_risk
  let change_risk : ℚ :=
    if features.change_type_deleted then 0.8
    else if features.change_type_new && features.is_system_path then 0.9
    else 0.5
  let risk_score := risk_score + change_risk * risk_weights.change_magnitude
  let behavior_risk : ℚ := if features.change_frequency > 0.5 then 0.2 else 0.4
  let risk_score := risk_score + behavior_risk * risk_weights.user_behavior
  min risk_score 1

/-- Concrete evaluation: `/etc/passwd` has no extension, so its extension
risk is the default 0.3. -/
theorem gfe_etc_passwd : get_file_extension_risk "/etc/passwd" = 0.3 := by
  simp only [get_file_extension_risk]
  rw [show pytoLower (splitext_ext "/etc/passwd") = "" from by decide]
  rw [if_neg (by decide), if_neg (by decide), if_neg (by decide)]

/-- Concrete evaluation: `/etc/passwd` matches the system_files category
first, so its location risk is 0.9. -/
theorem glr_etc_passwd : get_location_risk "/etc/passwd" = 0.9 := by
  simp only [get_location_risk, critical_patterns]
  rw [show pytoLower "/etc/passwd" = "/etc/passwd" from by decide]
  rw [List.find?_cons_of_pos _ (by decide)]

/-- C4: for every feature assignment whose extension and location
sub-scores lie in [0,1], the rule-based risk score lies in [0,1], and the
five combination weights sum to exactly 1. -/
theorem rule_based_risk_bounds (f : Features)
    (h1 : 0 ≤ f.file_extension_risk) (h2 : f.file_extension_risk ≤ 1)
    (h3 : 0 ≤ f.location_risk) (h4 : f.location_risk ≤ 1) :
    risk_weights.file_type_risk + risk_weights.location_risk +
      risk_weights.time_risk + risk_weights.change_magnitude +
      risk_weights.user_behavior = 1 ∧
    0 ≤ calculate_rule_based_risk f ∧ calculate_rule_based_risk f ≤ 1 := by
  refine ⟨by norm_num [risk_weights], ?_, ?_⟩
  · simp only [calculate_rule_based_risk, risk_weights]
    rw [le_min_iff]
    refine ⟨?_, by norm_num⟩
    split_ifs <;> norm_num [min_def] <;> nlinarith [h1, h2, h3, h4]
  · simp only [calculate_rule_based_risk]
    exact min_le_right _ _

/-- Witness for C4 at a concrete feature record. -/
theorem rule_based_risk_bounds_witness :
    risk_weights.file_type_risk + risk_weights.location_risk +
      risk_weights.time_risk + risk_weights.change_magnitude +
      risk_weights.user_behavior = 1 ∧
    0 ≤ calculate_rule_based_risk
        ⟨0.9, 0.8, true, true, 3, 6, true, false, false, false, true, 5, 0,
          0.1, 24.0, 0.3⟩ ∧
    calculate_rule_based_risk
        ⟨0.9, 0.8, true, true, 3, 6, true, false, false, false, true, 5, 0,
          0.1, 24.0, 0.3⟩ ≤ 1 :=
  rule_based_risk_bounds
    ⟨0.9, 0.8, true, true, 3, 6, true, false, false, false, true, 5, 0,
      0.1, 24.0, 0.3⟩
    (by norm_num) (by norm_num) (by norm_num) (by norm_num)

/-- C5 counterexample: scoring `/etc/passwd` with changeType=deleted at a
weekday business hour (hour 10, Tuesday) does NOT exceed the 0.7
threshold (the score is 0.54), refuting the claim that it exceeds 0.7 for
every time value. -/
theorem etc_passwd_deleted_not_above_threshold :
    ¬ risk_threshold <
        calculate_rule_based_risk
          (extract_features "/etc/passwd" "deleted" ⟨"aabb", 2048, "644", 900⟩
            ⟨10, 2⟩) := by
  simp only [calculate_rule_based_risk, extract_features, get_change_frequency,
    gfe_etc_passwd, glr_etc_passwd, risk_weights,
    (by decide : (("deleted" : String) == "deleted") = true),
    (by decide : (("deleted" : String) == "new") = false),
    (by decide : (decide (5 ≤ (2 : Nat))) = false),
    (by decide : (decide (9 ≤ (10 : Nat) ∧ (10 : Nat) ≤ 17)) = true),
    Bool.false_and, if_true, if_false]
  rw [if_neg (by norm_num : ¬ ((0.1 : ℚ) > 0.5))]
  norm_num [min_def, risk_threshold]

/-- C5 amended: scoring `/etc/passwd` with changeType=deleted yields a
risk score strictly BELOW the default high-risk threshold 0.7, for every
time-of-day/weekend value and every metadata input (the score ranges over
[0.54, 0.645]). -/
theorem etc_passwd_deleted_below_threshold (m : FileMeta) (c : Clock) :
    calculate_rule_based_risk (extract_features "/etc/passwd" "deleted" m c) <
      risk_threshold := by
  simp only [calculate_rule_based_risk, extract_features, get_change_frequency,
    gfe_etc_passwd, glr_etc_passwd, risk_weights,
    (by decide : (("deleted" : String) == "deleted") = true),
    (by decide : (("deleted" : String) == "new") = false),
    Bool.false_and, if_true, if_false]
  rw [if_neg (by norm_num : ¬ ((0.1 : ℚ) > 0.5))]
  split_ifs <;> norm_num [min_def, risk_threshold]

/-! ## Filesystem model, scanner (monitor.py) and baseline builder
(initialize.py). A directory tree holds named files (with `none` for a
file whose metadata extraction fails) and named subdirectories. -/

mutual
inductive FSTree where
  | node (files : List (String × Option FileMeta)) (dirs : FSForest)
deriving DecidableEq
inductive FSForest where
  | fnil
  | fcons (name : String) (t : FSTree) (rest : FSForest)
deriving DecidableEq
end

/-- `os.path.join(root, name)` for a root without trailing slash. -/
def pathJoin (root name : String) : String := root ++ "/" ++ name

/-- Relative-path accumulation: `os.path.relpath(join(root, name), top)`
grows by one component per directory level. -/
def relJoin (rel name : String) : String :=
  if rel = "" then name else rel ++ "/" ++ name

/-- `is_excluded(path)` from monitor.py: substring match against the
configured exclusion list. -/
def is_excluded (exclude : List String) (path : String) : Bool :=
  exclude.any (fun excluded => strContains path excluded)

mutual
/-- The walk of `scan_current_state`: files of the current directory are
skipped when excluded or when metadata extraction fails; subdirectories
are pruned (never traversed) when excluded. -/
def scan_walk (exclude : List String) (fullDir relDir : String) :
    FSTree → Snapshot
  | .node files dirs =>
    files.filterMap (fun fm =>
      if is_excluded exclude (pathJoin fullDir fm.1) then none
      else fm.2.map (fun m => (relJoin relDir fm.1, m)))
    ++ scan_walk_dirs exclude fullDir relDir dirs
def scan_walk_dirs (exclude : List String) (fullDir relDir : String) :
    FSForest → Snapshot
  | .fnil => []
  | .fcons name t rest =>
    (if is_excluded exclude (pathJoin fullDir name) then []
     else scan_walk exclude (pathJoin fullDir name) (relJoin relDir name) t)
    ++ scan_walk_dirs exclude fullDir relDir rest
end

/-- `scan_current_state(directory)` with the module-level exclusion list. -/
def scan_current_state (exclude : List String) (directory : String)
    (t : FSTree) : Snapshot :=
  scan_walk exclude directory "" t

mutual
/-- The walk of `build_baseline` in initialize.py: NO exclusion test of
any kind; only files whose metadata extraction fails are skipped. -/
def baseline_walk (fullDir relDir : String) : FSTree → Snapshot
  | .node files dirs =>
    files.filterMap (fun fm => fm.2.map (fun m => (relJoin relDir fm.1, m)))
    ++ baseline_walk_dirs fullDir relDir dirs
def baseline_walk_dirs (fullDir relDir : String) : FSForest → Snapshot
  | .fnil => []
  | .fcons name t rest =>
    baseline_walk (pathJoin fullDir name) (relJoin relDir name) t
    ++ baseline_walk_dirs fullDir relDir rest
end

/-- `build_baseline(directory)` from initialize.py. -/
def build_baseline (directory : String) (t : FSTree) : Snapshot :=
  baseline_walk directory "" t

mutual
/-- Well-formed tree: directory entry names are non-empty (true of any
real filesystem; empty names cannot arise from `os.walk`). -/
def treeWF : FSTree → Bool
  | .node _ dirs => forestWF dirs
def forestWF : FSForest → Bool
  | .fnil => true
  | .fcons name t rest => (name != "") && treeWF t && forestWF rest
end

/-! ## Persistence (save_baseline, save_report) as filesystem-operation
traces, and the monitor loop. -/

/-- What `json.dump` writes: either a change report or a baseline map. -/
inductive Payload where
  | reportDoc (modified deleted new : List String)
  | snapshotDoc (snap : Snapshot)
deriving DecidableEq

/-- Elementary filesystem actions of the persistence code. `openTrunc`
is `open(path, "w")` (truncates the destination); `rename` is in the
vocabulary to state the atomic-replace discipline. -/
inductive FsOp where
  | openTrunc (path : String)
  | writeData (path : String) (data : Payload)
  | rename (src dst : String)
deriving DecidableEq

/-- `BASELINE_PATH` of initialize.py. -/
def BASELINE_PATH : String := "data/baseline.json"

/-- `save_report`: opens the report path for writing (truncating it) and
dumps the report object straight into it. -/
def save_report_ops (report_file : String)
    (modified deleted new : List String) : List FsOp :=
  [.openTrunc report_file,
   .writeData report_file (.reportDoc modified deleted new)]

/-- `save_baseline` of initialize.py: same direct-write shape at the
fixed baseline path. -/
def save_baseline_ops (data : Snapshot) : List FsOp :=
  [.openTrunc BASELINE_PATH, .writeData BASELINE_PATH (.snapshotDoc data)]

/-- Modelled from the spec: the required discipline `write to temporary
location, then rename into place` — no open/write op ever targets the
destination and the trace ends with a rename of a temporary onto it. -/
def atomicReplaceDiscipline (dest : String) (ops : List FsOp) : Prop :=
  (∀ op ∈ ops, match op with
    | .openTrunc p => p ≠ dest
    | .writeData p _ => p ≠ dest
    | .rename _ _ => True) ∧
  ∃ tmp, tmp ≠ dest ∧ ops.getLast? = some (.rename tmp dest)

/-- The configuration surface consumed by monitor.py. -/
structure Config where
  monitor_path : String
  baseline_file : String
  report_file : String
  ai_report_file : String
  exclude : List String
  scan_interval : Nat
  ai_risk_scoring : Bool
  email_alert : Bool
  beep_on_change : Bool
deriving DecidableEq

/-- The environment `send_email_alert` runs in: credentials present or
not, SMTP transport working or raising. -/
inductive EmailEnv where
  | missingCreds
  | transportFail
  | ok
deriving DecidableEq

inductive SendResult where
  | failedMissingCreds
  | failedTransport
  | sent
deriving DecidableEq

/-- `send_email_alert` from utils/email_alert.py: returns early when
credentials are missing and catches every transport exception — it
returns in every environment, never propagating failure to the caller. -/
def send_email_alert (env : EmailEnv) (_message : String) : SendResult :=
  match env with
  | .missingCreds => .failedMissingCreds
  | .transportFail => .failedTransport
  | .ok => .sent

/-- Python's `str.strip()` (whitespace from both ends). -/
def pystrip (s : String) : String :=
  ⟨((s.toList.dropWhile Char.isWhitespace).reverse.dropWhile
      Char.isWhitespace).reverse⟩

/-- The alert body rendered in `main` before `send_email_alert`. -/
def alert_body (modified deleted new : List String) : String :=
  let body := ""
  let body := if modified ≠ [] then
    body ++ "Modified files:\n" ++
      String.intercalate "\n" (modified.map (fun f => " -" ++ f)) ++ "\n\n"
    else body
  let body := if deleted ≠ [] then
    body ++ "Deleted files:\n" ++
      String.intercalate "\n" (deleted.map (fun f => " -" ++ f)) ++ "\n\n"
    else body
  let body := if new ≠ [] then
    body ++ "New files:\n" ++
      String.intercalate "\n" (new.map (fun f => " -" ++ f)) ++ "\n\n"
    else body
  pystrip body

/-- The loop state of `main`: the last change sets that triggered each
channel (Python `set` values modelled as `Finset String`). -/
structure AlertState where
  last_modified : Finset String
  last_deleted : Finset String
  last_new : Finset String
  audio_last_modified : Finset String
  audio_last_deleted : Finset String
  audio_last_new : Finset String
deriving DecidableEq

/-- `main`'s initial state: six empty sets. -/
def initialAlertState : AlertState := ⟨∅, ∅, ∅, ∅, ∅, ∅⟩

/-- Observable effects of one loop iteration. -/
inductive Effect where
  | fs (op : FsOp)
  | emailAttempt (body : String) (result : SendResult)
  | beep
  | sleep (seconds : Nat)
deriving DecidableEq

/-- The email-alert block of `main` (lines 128–144): fires when the
channel is enabled and the current change sets differ from the last
notified ones; the last-notified sets are updated after the send call
unconditionally — `send_email_alert` has no failure signal. -/
def email_phase (enabled : Bool) (env : EmailEnv)
    (modified deleted new : List String) (st : AlertState) :
    AlertState × List Effect :=
  if enabled then
    let current_modified := modified.toFinset
    let current_deleted := deleted.toFinset
    let current_new := new.toFinset
    if current_modified ≠ st.last_modified ∨
        current_deleted ≠ st.last_deleted ∨ current_new ≠ st.last_new then
      let body := alert_body modified deleted new
      let result := send_email_alert env body
      ({ st with last_modified := current_modified,
                 last_deleted := current_deleted, last_new := current_new },
       [.emailAttempt body result])
    else (st, [])
  else (st, [])

/-- The audio-alert block of `main` (lines 146–154). -/
def beep_phase (enabled : Bool) (modified deleted new : List String)
    (st : AlertState) : AlertState × List Effect :=
  if enabled then
    if modified.toFinset ≠ st.audio_last_modified ∨
        deleted.toFinset ≠ st.audio_last_deleted ∨
        new.toFinset ≠ st.audio_last_new then
      ({ st with audio_last_modified := modified.toFinset,
                 audio_last_deleted := deleted.toFinset,
                 audio_last_new := new.toFinset },
       [.beep])
    else (st, [])
  else (st, [])

/-- One iteration of `main`'s while loop. `startup` is the module-level
config loaded at import time (MONITOR_PATH, exclude, REPORT_PATH,
SCAN_INTERVAL come from it); `cfg` is the `current_config` re-read at the
top of the iteration (only its channel toggles are consulted). -/
def monitorCycle (startup : Config) (baseline : Snapshot) (cfg : Config)
    (tree : FSTree) (env : EmailEnv) (st : AlertState) :
    AlertState × List Effect :=
  let current_state := scan_current_state startup.exclude
    startup.monitor_path tree
  let c := compare_states baseline current_state
  let modified := c.1
  let deleted := c.2.1
  let new := c.2.2
  let ep := email_phase cfg.email_alert env modified deleted new st
  let bp := beep_phase cfg.beep_on_change modified deleted new ep.1
  (bp.1,
   (save_report_ops startup.report_file modified deleted new).map Effect.fs
     ++ ep.2 ++ bp.2 ++ [.sleep startup.scan_interval])

/-- Consecutive iterations of the loop: each cycle re-reads the config
(the per-cycle `Config`), sees the filesystem as it then is, and runs in
an email environment. -/
def runMonitor (startup : Config) (baseline : Snapshot) :
    List (Config × FSTree × EmailEnv) → AlertState →
    AlertState × List Effect
  | [], st => (st, [])
  | (cfg, tree, env) :: rest, st =>
    let r := monitorCycle startup baseline cfg tree env st
    let r2 := runMonitor startup baseline rest r.1
    (r2.1, r.2 ++ r2.2)

/-- Paths written (created/truncated/renamed onto) by a list of effects. -/
def effectWritePaths (effs : List Effect) : List String :=
  effs.filterMap (fun e => match e with
    | .fs (.openTrunc p) => some p
    | .fs (.writeData p _) => some p
    | .fs (.rename _ dst) => some dst
    | _ => none)

/-- The filesystem operations among a list of effects. -/
def fsOpsOf (effs : List Effect) : List FsOp :=
  effs.filterMap (fun e => match e with | .fs op => some op | _ => none)

/-- The sleep durations among a list of effects. -/
def sleepsOf (effs : List Effect) : List Nat :=
  effs.filterMap (fun e => match e with | .sleep s => some s | _ => none)

/-- The number of email-send attempts among a list of effects. -/
def emailAttemptCount (effs : List Effect) : Nat :=
  (effs.filter (fun e => match e with
    | .emailAttempt _ _ => true
    | _ => false)).length

/-- The email-send attempts among a list of effects. -/
def emailEffects (effs : List Effect) : List Effect :=
  effs.filter (fun e => match e with
    | .emailAttempt _ _ => true
    | _ => false)

/-- The number of beeps among a list of effects. -/
def beepCount (effs : List Effect) : Nat :=
  (effs.filter (fun e => match e with | .beep => true | _ => false)).length

/-- The (modified, deleted, new) lists of one cycle: the diff of the
baseline against the scan of the cycle's filesystem. -/
def cycleDiff (baseline : Snapshot) (exclude : List String)
    (directory : String) (tree : FSTree) :
    List String × List String × List String :=
  compare_states baseline (scan_current_state exclude directory tree)

/-- The three change sets of one cycle, as sets. -/
def changeFinsets (baseline : Snapshot) (exclude : List String)
    (directory : String) (tree : FSTree) :
    Finset String × Finset String × Finset String :=
  ((cycleDiff baseline exclude directory tree).1.toFinset,
   (cycleDiff baseline exclude directory tree).2.1.toFinset,
   (cycleDiff baseline exclude directory tree).2.2.toFinset)

/-- The email channel's dedup signature inside the loop state. -/
def lastTriple (st : AlertState) : Finset String × Finset String × Finset String :=
  (st.last_modified, st.last_deleted, st.last_new)

theorem strContains_eq_false_of_not_excluded {exclude : List String}
    {pat path : String} (hpat : pat ∈ exclude)
    (h : is_excluded exclude path = false) :
    strContains path pat = false := by
  cases hsc : strContains path pat with
  | false => rfl
  | true =>
    exfalso
    have hx : is_excluded exclude path = true := by
      simp only [is_excluded, List.any_eq_true]
      exact ⟨pat, hpat, hsc⟩
    rw [h] at hx
    exact Bool.noConfusion hx

theorem relJoin_assoc (relDir name sub : String) (hname : name ≠ "") :
    relJoin (relJoin relDir name) sub = relJoin relDir (name ++ "/" ++ sub) := by
  by_cases h0 : relDir = ""
  · subst h0; simp [relJoin, hname]
  · have h1 : ¬ relDir ++ "/" ++ name = "" := by
      intro he
      have hl := congrArg String.length he
      rw [String.length_append, String.length_append] at hl
      rw [show ("/" : String).length = 1 from rfl,
        show ("" : String).length = 0 from rfl] at hl
      omega
    simp only [relJoin, if_neg h0, if_neg h1]
    simp [String.append_assoc]

theorem pathJoin_assoc (fullDir name sub : String) :
    pathJoin (pathJoin fullDir name) sub =
      pathJoin fullDir (name ++ "/" ++ sub) := by
  simp [pathJoin, String.append_assoc]

mutual
theorem scan_walk_excl {exclude : List String} {pat : String}
    (hpat : pat ∈ exclude) :
    ∀ (fullDir relDir : String) (t : FSTree) (rel : String) (m : FileMeta),
      treeWF t = true →
      (rel, m) ∈ scan_walk exclude fullDir relDir t →
      ∃ sub, rel = relJoin relDir sub ∧
        strContains (pathJoin fullDir sub) pat = false
  | fullDir, relDir, .node files dirs, rel, m, hwf, hmem => by
    simp only [scan_walk] at hmem
    rcases List.mem_append.1 hmem with hin | hin
    · rcases List.mem_filterMap.1 hin with ⟨fm, _, hsome⟩
      cases hex : is_excluded exclude (pathJoin fullDir fm.1) with
      | true => rw [if_pos hex] at hsome; exact Option.noConfusion hsome
      | false =>
        rw [if_neg (by simp [hex])] at hsome
        rcases Option.map_eq_some'.1 hsome with ⟨mm, _, heq⟩
        have hrel : rel = relJoin relDir fm.1 :=
          (congrArg Prod.fst heq).symm
        exact ⟨fm.1, hrel, strContains_eq_false_of_not_excluded hpat hex⟩
    · have hwf' : forestWF dirs = true := by simpa [treeWF] using hwf
      exact scan_walk_dirs_excl hpat fullDir relDir dirs rel m hwf' hin

theorem scan_walk_dirs_excl {exclude : List String} {pat : String}
    (hpat : pat ∈ exclude) :
    ∀ (fullDir relDir : String) (f : FSForest) (rel : String) (m : FileMeta),
      forestWF f = true →
      (rel, m) ∈ scan_walk_dirs exclude fullDir relDir f →
      ∃ sub, rel = relJoin relDir sub ∧
        strContains (pathJoin fullDir sub) pat = false
  | fullDir, relDir, .fnil, rel, m, _, hmem => by
    simp [scan_walk_dirs] at hmem
  | fullDir, relDir, .fcons name t rest, rel, m, hwf, hmem => by
    have hw : (name ≠ "" ∧ treeWF t = true) ∧ forestWF rest = true := by
      simpa [forestWF, Bool.and_eq_true, bne_iff_ne] using hwf
    simp only [scan_walk_dirs] at hmem
    rcases List.mem_append.1 hmem with hin | hin
    · cases hex : is_excluded exclude (pathJoin fullDir name) with
      | true => rw [if_pos hex] at hin; exact absurd hin (List.not_mem_nil _)
      | false =>
        rw [if_neg (by simp [hex])] at hin
        obtain ⟨sub, hrel, hc⟩ :=
          scan_walk_excl hpat (pathJoin fullDir name) (relJoin relDir name)
            t rel m hw.1.2 hin
        refine ⟨name ++ "/" ++ sub, ?_, ?_⟩
        · rw [hrel, relJoin_assoc relDir name sub hw.1.1]
        · rw [← pathJoin_assoc]; exact hc
    · exact scan_walk_dirs_excl hpat fullDir relDir rest rel m hw.2 hin
end

/-- C7 amended: a file whose full path contains a configured exclusion
pattern appears in no Snapshot produced by the monitor's per-cycle scan.
(The Baseline built by initialize.py applies no exclusions — see the
counterexample.) -/
theorem scan_excludes_configured_patterns (exclude : List String)
    (pat directory : String) (t : FSTree) (rel : String) (m : FileMeta)
    (hpat : pat ∈ exclude) (hwf : treeWF t = true)
    (hmem : (rel, m) ∈ scan_current_state exclude directory t) :
    strContains (pathJoin directory rel) pat = false := by
  obtain ⟨sub, hrel, hc⟩ :=
    scan_walk_excl hpat directory "" t rel m hwf hmem
  rw [hrel]
  simpa [relJoin] using hc

/-- Witness for C7's amended theorem: with pattern `/tmp/` configured,
the surviving scan entry `ok` has a full path free of the pattern. -/
theorem scan_excludes_configured_patterns_witness :
    strContains (pathJoin "" "ok") "/tmp/" = false :=
  scan_excludes_configured_patterns ["/tmp/"] "/tmp/" ""
    (.node [("ok", some ⟨"aa", 1, "644", 1⟩)]
      (.fcons "tmp"
        (.node [] (.fcons "cache"
          (.node [("x", some ⟨"c0ffee", 4, "644", 50⟩)] .fnil) .fnil))
        .fnil))
    "ok" ⟨"aa", 1, "644", 1⟩ (by decide) (by decide) (by decide)

/-- C7 counterexample: with exclusion pattern `/tmp/` configured, the
baseline built by initialize.py still contains the file `tmp/cache/x`,
whose full path `/tmp/cache/x` contains the pattern — initialization
applies no exclusion patterns at all. -/
theorem baseline_contains_excluded_file :
    ("tmp/cache/x", (⟨"c0ffee", 4, "644", 50⟩ : FileMeta)) ∈
        build_baseline ""
          (.node [] (.fcons "tmp"
            (.node [] (.fcons "cache"
              (.node [("x", some ⟨"c0ffee", 4, "644", 50⟩)] .fnil) .fnil))
            .fnil)) ∧
    strContains (pathJoin "" "tmp/cache/x") "/tmp/" = true := by decide

/-! ## Behavior of the loop phases. -/

theorem email_phase_disabled (env : EmailEnv) (m d n : List String)
    (st : AlertState) : email_phase false env m d n st = (st, []) := rfl

theorem email_phase_fires (env : EmailEnv) (m d n : List String)
    (st : AlertState)
    (h : m.toFinset ≠ st.last_modified ∨ d.toFinset ≠ st.last_deleted ∨
      n.toFinset ≠ st.last_new) :
    email_phase true env m d n st =
      ({ st with last_modified := m.toFinset, last_deleted := d.toFinset,
                 last_new := n.toFinset },
       [.emailAttempt (alert_body m d n)
          (send_email_alert env (alert_body m d n))]) := by
  simp [email_phase, h]

theorem email_phase_silent (env : EmailEnv) (m d n : List String)
    (st : AlertState)
    (h : ¬ (m.toFinset ≠ st.last_modified ∨ d.toFinset ≠ st.last_deleted ∨
      n.toFinset ≠ st.last_new)) :
    email_phase true env m d n st = (st, []) := by
  simp [email_phase, h]

theorem beep_phase_lastTriple (enabled : Bool) (m d n : List String)
    (st : AlertState) :
    lastTriple (beep_phase enabled m d n st).1 = lastTriple st := by
  simp only [beep_phase, lastTriple]
  split_ifs <;> simp

theorem beep_phase_emailCount (enabled : Bool) (m d n : List String)
    (st : AlertState) :
    emailAttemptCount (beep_phase enabled m d n st).2 = 0 := by
  simp only [beep_phase]
  split_ifs <;> simp [emailAttemptCount]

theorem beep_phase_emailEffects (enabled : Bool) (m d n : List String)
    (st : AlertState) :
    emailEffects (beep_phase enabled m d n st).2 = [] := by
  simp only [beep_phase]
  split_ifs <;> simp [emailEffects]

theorem beep_phase_fsOps (enabled : Bool) (m d n : List String)
    (st : AlertState) : fsOpsOf (beep_phase enabled m d n st).2 = [] := by
  simp only [beep_phase]
  split_ifs <;> simp [fsOpsOf]

theorem beep_phase_sleeps (enabled : Bool) (m d n : List String)
    (st : AlertState) : sleepsOf (beep_phase enabled m d n st).2 = [] := by
  simp only [beep_phase]
  split_ifs <;> simp [sleepsOf]

theorem beep_phase_writePaths (enabled : Bool) (m d n : List String)
    (st : AlertState) :
    effectWritePaths (beep_phase enabled m d n st).2 = [] := by
  simp only [beep_phase]
  split_ifs <;> simp [effectWritePaths]

theorem email_phase_fsOps (enabled : Bool) (env : EmailEnv)
    (m d n : List String) (st : AlertState) :
    fsOpsOf (email_phase enabled env m d n st).2 = [] := by
  simp only [email_phase]
  split_ifs <;> simp [fsOpsOf]

theorem email_phase_sleeps (enabled : Bool) (env : EmailEnv)
    (m d n : List String) (st : AlertState) :
    sleepsOf (email_phase enabled env m d n st).2 = [] := by
  simp only [email_phase]
  split_ifs <;> simp [sleepsOf]

theorem email_phase_writePaths (enabled : Bool) (env : EmailEnv)
    (m d n : List String) (st : AlertState) :
    effectWritePaths (email_phase enabled env m d n st).2 = [] := by
  simp only [email_phase]
  split_ifs <;> simp [effectWritePaths]

theorem emailAttemptCount_append (a b : List Effect) :
    emailAttemptCount (a ++ b) = emailAttemptCount a + emailAttemptCount b := by
  simp [emailAttemptCount, List.filter_append]

theorem emailEffects_append (a b : List Effect) :
    emailEffects (a ++ b) = emailEffects a ++ emailEffects b := by
  simp [emailEffects, List.filter_append]

theorem fsOpsOf_append (a b : List Effect) :
    fsOpsOf (a ++ b) = fsOpsOf a ++ fsOpsOf b := by
  simp [fsOpsOf]

theorem sleepsOf_append (a b : List Effect) :
    sleepsOf (a ++ b) = sleepsOf a ++ sleepsOf b := by
  simp [sleepsOf]

theorem effectWritePaths_append (a b : List Effect) :
    effectWritePaths (a ++ b) = effectWritePaths a ++ effectWritePaths b := by
  simp [effectWritePaths]

theorem beepCount_append (a b : List Effect) :
    beepCount (a ++ b) = beepCount a + beepCount b := by
  simp [beepCount, List.filter_append]

theorem emailAttemptCount_nil : emailAttemptCount [] = 0 := rfl

theorem emailAttemptCount_attempt (b : String) (r : SendResult) :
    emailAttemptCount [.emailAttempt b r] = 1 := rfl

theorem emailAttemptCount_sleep (s : Nat) :
    emailAttemptCount [.sleep s] = 0 := rfl

theorem emailAttemptCount_report (rf : String) (m d n : List String) :
    emailAttemptCount ((save_report_ops rf m d n).map Effect.fs) = 0 := rfl

theorem emailEffects_nil : emailEffects [] = [] := rfl

theorem emailEffects_attempt (b : String) (r : SendResult) :
    emailEffects [.emailAttempt b r] = [.emailAttempt b r] := rfl

theorem emailEffects_sleep (s : Nat) : emailEffects [.sleep s] = [] := rfl

theorem emailEffects_report (rf : String) (m d n : List String) :
    emailEffects ((save_report_ops rf m d n).map Effect.fs) = [] := rfl

theorem fsOpsOf_nil : fsOpsOf [] = [] := rfl

theorem fsOpsOf_attempt (b : String) (r : SendResult) :
    fsOpsOf [.emailAttempt b r] = [] := rfl

theorem fsOpsOf_sleep (s : Nat) : fsOpsOf [.sleep s] = [] := rfl

theorem fsOpsOf_report (rf : String) (m d n : List String) :
    fsOpsOf ((save_report_ops rf m d n).map Effect.fs) =
      save_report_ops rf m d n := rfl

theorem sleepsOf_nil : sleepsOf [] = [] := rfl

theorem sleepsOf_attempt (b : String) (r : SendResult) :
    sleepsOf [.emailAttempt b r] = [] := rfl

theorem sleepsOf_sleep (s : Nat) : sleepsOf [.sleep s] = [s] := rfl

theorem sleepsOf_report (rf : String) (m d n : List String) :
    sleepsOf ((save_report_ops rf m d n).map Effect.fs) = [] := rfl

theorem effectWritePaths_nil : effectWritePaths [] = [] := rfl

theorem effectWritePaths_attempt (b : String) (r : SendResult) :
    effectWritePaths [.emailAttempt b r] = [] := rfl

theorem effectWritePaths_sleep (s : Nat) :
    effectWritePaths [.sleep s] = [] := rfl

theorem effectWritePaths_report (rf : String) (m d n : List String) :
    effectWritePaths ((save_report_ops rf m d n).map Effect.fs) = [rf, rf] :=
  rfl

theorem beepCount_nil : beepCount [] = 0 := rfl

theorem beepCount_attempt (b : String) (r : SendResult) :
    beepCount [.emailAttempt b r] = 0 := rfl

theorem beepCount_sleep (s : Nat) : beepCount [.sleep s] = 0 := rfl

theorem beepCount_report (rf : String) (m d n : List String) :
    beepCount ((save_report_ops rf m d n).map Effect.fs) = 0 := rfl

theorem beep_phase_disabled (m d n : List String) (st : AlertState) :
    beep_phase false m d n st = (st, []) := rfl

theorem beepCount_beep_phase_disabled (m d n : List String)
    (st : AlertState) : beepCount (beep_phase false m d n st).2 = 0 := rfl

theorem beepCount_email_phase (enabled : Bool) (env : EmailEnv)
    (m d n : List String) (st : AlertState) :
    beepCount (email_phase enabled env m d n st).2 = 0 := by
  simp only [email_phase]
  split_ifs <;> simp [beepCount]

theorem triple_ne_iff (m d n : List String) (st : AlertState) :
    (m.toFinset, d.toFinset, n.toFinset) ≠ lastTriple st ↔
      (m.toFinset ≠ st.last_modified ∨ d.toFinset ≠ st.last_deleted ∨
        n.toFinset ≠ st.last_new) := by
  constructor
  · intro h
    by_contra hcon
    push_neg at hcon
    exact h (by simp [lastTriple, Prod.ext_iff, hcon.1, hcon.2.1, hcon.2.2])
  · intro h heq
    have h1 := congrArg Prod.fst heq
    have h2 := congrArg (fun p => p.2.1) heq
    have h3 := congrArg (fun p => p.2.2) heq
    simp [lastTriple] at h1 h2 h3
    rcases h with h | h | h
    · exact h h1
    · exact h h2
    · exact h h3

theorem lastTriple_initial : lastTriple initialAlertState = (∅, ∅, ∅) := rfl

/-! ## Behavior of one full cycle. -/

theorem monitorCycle_emailCount (startup : Config) (baseline : Snapshot)
    (cfg : Config) (tree : FSTree) (env : EmailEnv) (st : AlertState) :
    emailAttemptCount (monitorCycle startup baseline cfg tree env st).2 =
      if cfg.email_alert = true ∧
          changeFinsets baseline startup.exclude startup.monitor_path tree ≠
            lastTriple st
      then 1 else 0 := by
  simp only [monitorCycle]
  cases hen : cfg.email_alert with
  | false =>
    rw [email_phase_disabled]
    simp only [emailAttemptCount_append, emailAttemptCount_report,
      emailAttemptCount_nil, emailAttemptCount_sleep, beep_phase_emailCount]
    simp [hen]
  | true =>
    by_cases hc : changeFinsets baseline startup.exclude
        startup.monitor_path tree ≠ lastTriple st
    · have hor := (triple_ne_iff
        (compare_states baseline (scan_current_state startup.exclude
          startup.monitor_path tree)).1
        (compare_states baseline (scan_current_state startup.exclude
          startup.monitor_path tree)).2.1
        (compare_states baseline (scan_current_state startup.exclude
          startup.monitor_path tree)).2.2
        st).1 (by simpa [changeFinsets, cycleDiff] using hc)
      rw [email_phase_fires _ _ _ _ _ hor]
      simp only [emailAttemptCount_append, emailAttemptCount_report,
        emailAttemptCount_attempt, emailAttemptCount_sleep,
        beep_phase_emailCount]
      simp [hen, hc]
    · have hor := (not_iff_not.2 (triple_ne_iff
        (compare_states baseline (scan_current_state startup.exclude
          startup.monitor_path tree)).1
        (compare_states baseline (scan_current_state startup.exclude
          startup.monitor_path tree)).2.1
        (compare_states baseline (scan_current_state startup.exclude
          startup.monitor_path tree)).2.2
        st)).1 (by simpa [changeFinsets, cycleDiff] using hc)
      rw [email_phase_silent _ _ _ _ _ hor]
      simp only [emailAttemptCount_append, emailAttemptCount_report,
        emailAttemptCount_nil, emailAttemptCount_sleep, beep_phase_emailCount]
      simp [hen, hc]

theorem monitorCycle_emailEffects (startup : Config) (baseline : Snapshot)
    (cfg : Config) (tree : FSTree) (env : EmailEnv) (st : AlertState) :
    emailEffects (monitorCycle startup baseline cfg tree env st).2 =
      if cfg.email_alert = true ∧
          changeFinsets baseline startup.exclude startup.monitor_path tree ≠
            lastTriple st
      then [.emailAttempt
              (alert_body
                (cycleDiff baseline startup.exclude startup.monitor_path tree).1
                (cycleDiff baseline startup.exclude startup.monitor_path tree).2.1
                (cycleDiff baseline startup.exclude startup.monitor_path tree).2.2)
              (send_email_alert env
                (alert_body
                  (cycleDiff baseline startup.exclude startup.monitor_path tree).1
                  (cycleDiff baseline startup.exclude startup.monitor_path tree).2.1
                  (cycleDiff baseline startup.exclude startup.monitor_path tree).2.2))]
      else [] := by
  simp only [monitorCycle]
  cases hen : cfg.email_alert with
  | false =>
    rw [email_phase_disabled]
    simp only [emailEffects_append, emailEffects_report, emailEffects_nil,
      emailEffects_sleep, beep_phase_emailEffects]
    simp [hen]
  | true =>
    by_cases hc : changeFinsets baseline startup.exclude
        startup.monitor_path tree ≠ lastTriple st
    · have hor := (triple_ne_iff
        (compare_states baseline (scan_current_state startup.exclude
          startup.monitor_path tree)).1
        (compare_states baseline (scan_current_state startup.exclude
          startup.monitor_path tree)).2.1
        (compare_states baseline (scan_current_state startup.exclude
          startup.monitor_path tree)).2.2
        st).1 (by simpa [changeFinsets, cycleDiff] using hc)
      rw [email_phase_fires _ _ _ _ _ hor]
      simp only [emailEffects_append, emailEffects_report,
        emailEffects_attempt, emailEffects_sleep, beep_phase_emailEffects]
      simp [hen, hc, cycleDiff]
    · have hor := (not_iff_not.2 (triple_ne_iff
        (compare_states baseline (scan_current_state startup.exclude
          startup.monitor_path tree)).1
        (compare_states baseline (scan_current_state startup.exclude
          startup.monitor_path tree)).2.1
        (compare_states baseline (scan_current_state startup.exclude
          startup.monitor_path tree)).2.2
        st)).1 (by simpa [changeFinsets, cycleDiff] using hc)
      rw [email_phase_silent _ _ _ _ _ hor]
      simp only [emailEffects_append, emailEffects_report, emailEffects_nil,
        emailEffects_sleep, beep_phase_emailEffects]
      simp [hen, hc]

theorem monitorCycle_lastTriple (startup : Config) (baseline : Snapshot)
    (cfg : Config) (tree : FSTree) (env : EmailEnv) (st : AlertState) :
    lastTriple (monitorCycle startup baseline cfg tree env st).1 =
      if cfg.email_alert = true ∧
          changeFinsets baseline startup.exclude startup.monitor_path tree ≠
            lastTriple st
      then changeFinsets baseline startup.exclude startup.monitor_path tree
      else lastTriple st := by
  simp only [monitorCycle]
  cases hen : cfg.email_alert with
  | false =>
    rw [email_phase_disabled]
    rw [show ((st, ([] : List Effect)).1) = st from rfl]
    rw [beep_phase_lastTriple]
    simp [hen]
  | true =>
    by_cases hc : changeFinsets baseline startup.exclude
        startup.monitor_path tree ≠ lastTriple st
    · have hor := (triple_ne_iff
        (compare_states baseline (scan_current_state startup.exclude
          startup.monitor_path tree)).1
        (compare_states baseline (scan_current_state startup.exclude
          startup.monitor_path tree)).2.1
        (compare_states baseline (scan_current_state startup.exclude
          startup.monitor_path tree)).2.2
        st).1 (by simpa [changeFinsets, cycleDiff] using hc)
      rw [email_phase_fires _ _ _ _ _ hor]
      rw [beep_phase_lastTriple]
      rw [if_pos ⟨rfl, hc⟩]
      simp [lastTriple, changeFinsets, cycleDiff]
    · have hor := (not_iff_not.2 (triple_ne_iff
        (compare_states baseline (scan_current_state startup.exclude
          startup.monitor_path tree)).1
        (compare_states baseline (scan_current_state startup.exclude
          startup.monitor_path tree)).2.1
        (compare_states baseline (scan_current_state startup.exclude
          startup.monitor_path tree)).2.2
        st)).1 (by simpa [changeFinsets, cycleDiff] using hc)
      rw [email_phase_silent _ _ _ _ _ hor]
      rw [show ((st, ([] : List Effect)).1) = st from rfl]
      rw [beep_phase_lastTriple]
      simp [hen, hc]

theorem monitorCycle_fsOps (startup : Config) (baseline : Snapshot)
    (cfg : Config) (tree : FSTree) (env : EmailEnv) (st : AlertState) :
    fsOpsOf (monitorCycle startup baseline cfg tree env st).2 =
      save_report_ops startup.report_file
        (cycleDiff baseline startup.exclude startup.monitor_path tree).1
        (cycleDiff baseline startup.exclude startup.monitor_path tree).2.1
        (cycleDiff baseline startup.exclude startup.monitor_path tree).2.2 := by
  simp only [monitorCycle, fsOpsOf_append, fsOpsOf_report, fsOpsOf_sleep,
    email_phase_fsOps, beep_phase_fsOps, cycleDiff, List.append_nil]

theorem monitorCycle_sleeps (startup : Config) (baseline : Snapshot)
    (cfg : Config) (tree : FSTree) (env : EmailEnv) (st : AlertState) :
    sleepsOf (monitorCycle startup baseline cfg tree env st).2 =
      [startup.scan_interval] := by
  simp only [monitorCycle, sleepsOf_append, sleepsOf_report, sleepsOf_sleep,
    email_phase_sleeps, beep_phase_sleeps, List.nil_append, List.append_nil]

theorem monitorCycle_writePaths (startup : Config) (baseline : Snapshot)
    (cfg : Config) (tree : FSTree) (env : EmailEnv) (st : AlertState) :
    effectWritePaths (monitorCycle startup baseline cfg tree env st).2 =
      [startup.report_file, startup.report_file] := by
  simp only [monitorCycle, effectWritePaths_append, effectWritePaths_report,
    effectWritePaths_sleep, email_phase_writePaths, beep_phase_writePaths,
    List.append_nil]

theorem monitorCycle_beepCount_disabled (startup : Config)
    (baseline : Snapshot) (cfg : Config) (tree : FSTree) (env : EmailEnv)
    (st : AlertState) (h : cfg.beep_on_change = false) :
    beepCount (monitorCycle startup baseline cfg tree env st).2 = 0 := by
  simp only [monitorCycle, h]
  simp only [beepCount_append, beepCount_report, beepCount_sleep,
    beepCount_email_phase, beepCount_beep_phase_disabled]

/-- The path an FsOp creates or replaces. -/
def fsOpPath : FsOp → String
  | .openTrunc p => p
  | .writeData p _ => p
  | .rename _ dst => dst

/-- Whether an FsOp is a rename. -/
def fsOpIsRename : FsOp → Bool
  | .rename _ _ => true
  | _ => false

/-- C9 counterexample: neither `save_report` nor `save_baseline` follows
the write-to-temporary-then-rename discipline — the very first operation
of each opens the destination itself for (truncating) writing. -/
theorem saves_are_not_atomic :
    ¬ atomicReplaceDiscipline ("data/report.json")
        (save_report_ops "data/report.json" ["a.txt"] [] []) ∧
    ¬ atomicReplaceDiscipline BASELINE_PATH
        (save_baseline_ops [("a.txt", ⟨"h", 1, "644", 1⟩)]) := by
  constructor
  · rintro ⟨hnw, -⟩
    exact (hnw (.openTrunc "data/report.json")
      (by simp [save_report_ops])) rfl
  · rintro ⟨hnw, -⟩
    exact (hnw (.openTrunc BASELINE_PATH) (by simp [save_baseline_ops])) rfl

/-- C9 amended: both persistence functions write the serialized document
directly to the final destination — the first operation truncates the
destination itself, every operation targets the destination, and no
rename is performed; a concurrent reader can therefore observe a
partially written file. -/
theorem saves_write_destination_directly (report_file : String)
    (modified deleted new : List String) (data : Snapshot) :
    (save_report_ops report_file modified deleted new).head? =
      some (.openTrunc report_file) ∧
    (∀ op ∈ save_report_ops report_file modified deleted new,
      fsOpPath op = report_file ∧ fsOpIsRename op = false) ∧
    (save_baseline_ops data).head? = some (.openTrunc BASELINE_PATH) ∧
    (∀ op ∈ save_baseline_ops data,
      fsOpPath op = BASELINE_PATH ∧ fsOpIsRename op = false) := by
  refine ⟨rfl, ?_, rfl, ?_⟩
  · intro op hop
    rcases (by simpa [save_report_ops] using hop) with rfl | rfl <;>
      exact ⟨rfl, rfl⟩
  · intro op hop
    rcases (by simpa [save_baseline_ops] using hop) with rfl | rfl <;>
      exact ⟨rfl, rfl⟩

/-- C1 counterexample: a cycle with `ai_risk_scoring` enabled and a
non-empty detected change writes only the change report path; nothing is
written at the configured risk-report path. -/
theorem cycle_writes_no_ai_report_concrete :
    effectWritePaths
        (monitorCycle
          ⟨"/mon", "data/baseline.json", "data/report.json",
            "data/ai_risk_report.json", [], 10, true, false, false⟩
          []
          ⟨"/mon", "data/baseline.json", "data/report.json",
            "data/ai_risk_report.json", [], 10, true, false, false⟩
          (.node [("x", some ⟨"h1", 1, "644", 1⟩)] .fnil) .ok
          initialAlertState).2 =
      ["data/report.json", "data/report.json"] ∧
    (cycleDiff [] [] "/mon" (.node [("x", some ⟨"h1", 1, "644", 1⟩)] .fnil)).2.2 =
      ["x"] := by decide

/-- C1 amended: the monitoring cycle never scores changes and never
writes the risk report file: no write ever targets the configured
ai-report path (when distinct from the change-report path), and the
cycle's outcome is entirely independent of the `ai_risk_scoring` flag in
both the startup and the per-cycle configuration. -/
theorem cycle_never_writes_ai_report :
    (∀ (startup : Config) (baseline : Snapshot) (cfg : Config)
       (tree : FSTree) (env : EmailEnv) (st : AlertState),
       startup.ai_report_file ≠ startup.report_file →
       startup.ai_report_file ∉
         effectWritePaths (monitorCycle startup baseline cfg tree env st).2) ∧
    (∀ (startup : Config) (b : Bool) (baseline : Snapshot) (cfg : Config)
       (tree : FSTree) (env : EmailEnv) (st : AlertState),
       monitorCycle { startup with ai_risk_scoring := b } baseline cfg tree
           env st =
         monitorCycle startup baseline cfg tree env st ∧
       monitorCycle startup baseline { cfg with ai_risk_scoring := b } tree
           env st =
         monitorCycle startup baseline cfg tree env st) := by
  constructor
  · intro startup baseline cfg tree env st hne hmem
    rw [monitorCycle_writePaths] at hmem
    exact hne (by simpa using hmem)
  · intro startup b baseline cfg tree env st
    exact ⟨rfl, rfl⟩

/-- C8 counterexample: the per-cycle config demands exclusion pattern
`/tmp/` and interval 99, yet the cycle's report still contains the file
`tmp/x` (scanned with the startup exclusion list, which is empty) and the
cycle sleeps the startup interval 10 — exclusions and interval are NOT
re-read each cycle. -/
theorem startup_config_fixes_scan_and_interval :
    (monitorCycle
        ⟨"/mon", "data/baseline.json", "data/report.json",
          "data/ai_risk_report.json", [], 10, true, false, false⟩
        []
        ⟨"/mon", "data/baseline.json", "data/report.json",
          "data/ai_risk_report.json", ["/tmp/"], 99, true, false, false⟩
        (.node [] (.fcons "tmp"
          (.node [("x", some ⟨"h1", 1, "644", 1⟩)] .fnil) .fnil)) .ok
        initialAlertState).2 =
      [.fs (.openTrunc "data/report.json"),
       .fs (.writeData "data/report.json" (.reportDoc [] [] ["tmp/x"])),
       .sleep 10] ∧
    strContains (pathJoin "/mon" "tmp/x") "/tmp/" = true := by decide

/-- C8 amended: only the per-channel enable toggles are read from the
per-cycle configuration; the exclusion patterns, monitored path, report
path and scan interval all come from the startup (module-load)
configuration: the cycle's filesystem writes and sleep are identical for
any two per-cycle configs, the sleep is always the startup interval, and
the channel toggles of the per-cycle config do take effect. -/
theorem per_cycle_config_only_toggles :
    (∀ (startup : Config) (baseline : Snapshot) (c1 c2 : Config)
       (tree : FSTree) (env : EmailEnv) (st : AlertState),
       fsOpsOf (monitorCycle startup baseline c1 tree env st).2 =
         fsOpsOf (monitorCycle startup baseline c2 tree env st).2 ∧
       sleepsOf (monitorCycle startup baseline c1 tree env st).2 =
         sleepsOf (monitorCycle startup baseline c2 tree env st).2) ∧
    (∀ (startup : Config) (baseline : Snapshot) (cfg : Config)
       (tree : FSTree) (env : EmailEnv) (st : AlertState),
       sleepsOf (monitorCycle startup baseline cfg tree env st).2 =
         [startup.scan_interval]) ∧
    (∀ (startup : Config) (baseline : Snapshot) (cfg : Config)
       (tree : FSTree) (env : EmailEnv) (st : AlertState),
       emailAttemptCount (monitorCycle startup baseline cfg tree env st).2 =
         if cfg.email_alert = true ∧
             changeFinsets baseline startup.exclude startup.monitor_path
               tree ≠ lastTriple st
         then 1 else 0) ∧
    (∀ (startup : Config) (baseline : Snapshot) (cfg : Config)
       (tree : FSTree) (env : EmailEnv) (st : AlertState),
       cfg.beep_on_change = false →
       beepCount (monitorCycle startup baseline cfg tree env st).2 = 0) := by
  refine ⟨?_, ?_, ?_, ?_⟩
  · intro startup baseline c1 c2 tree env st
    rw [monitorCycle_fsOps, monitorCycle_fsOps, monitorCycle_sleeps,
      monitorCycle_sleeps]
    exact ⟨rfl, rfl⟩
  · intro startup baseline cfg tree env st
    exact monitorCycle_sleeps startup baseline cfg tree env st
  · intro startup baseline cfg tree env st
    exact monitorCycle_emailCount startup baseline cfg tree env st
  · intro startup baseline cfg tree env st h
    exact monitorCycle_beepCount_disabled startup baseline cfg tree env st h

theorem run_suppressed (startup : Config) (baseline : Snapshot)
    (inputs : List (Config × FSTree × EmailEnv)) (M D N : Finset String) :
    ∀ st : AlertState, lastTriple st = (M, D, N) →
      (∀ i ∈ inputs, changeFinsets baseline startup.exclude
        startup.monitor_path i.2.1 = (M, D, N)) →
      emailAttemptCount (runMonitor startup baseline inputs st).2 = 0 ∧
      lastTriple (runMonitor startup baseline inputs st).1 = (M, D, N) := by
  induction inputs with
  | nil => exact fun st hst _ => ⟨rfl, hst⟩
  | cons i rest ih =>
    intro st hst hall
    obtain ⟨cfg, tree, env⟩ := i
    have hcf : changeFinsets baseline startup.exclude startup.monitor_path
        tree = (M, D, N) := hall _ (List.mem_cons_self _ _)
    have hcond : ¬ (cfg.email_alert = true ∧
        changeFinsets baseline startup.exclude startup.monitor_path tree ≠
          lastTriple st) := by
      rintro ⟨-, hne⟩
      exact hne (hcf.trans hst.symm)
    have hcount := monitorCycle_emailCount startup baseline cfg tree env st
    rw [if_neg hcond] at hcount
    have htrip := monitorCycle_lastTriple startup baseline cfg tree env st
    rw [if_neg hcond] at htrip
    have hrest := ih (monitorCycle startup baseline cfg tree env st).1
      (htrip.trans hst) (fun j hj => hall j (List.mem_cons_of_mem _ hj))
    simp only [runMonitor]
    exact ⟨by rw [emailAttemptCount_append, hcount, hrest.1], hrest.2⟩

/-- C6 amended: with the email channel enabled on every cycle, a run of
N ≥ 1 consecutive cycles from process start whose change sets are all the
same non-empty triple notifies exactly once; a run whose change set takes
value S1, then S2 ≠ S1, then S1 again notifies exactly three times from
process start — the change and the reversion each notify once more after
the initial notification (the spec's count of two holds only for the
cycles after the initial S1 notification). -/
theorem alert_dedup_once_and_revert :
    (∀ (startup : Config) (baseline : Snapshot)
       (inputs : List (Config × FSTree × EmailEnv)) (M D N : Finset String),
       inputs ≠ [] →
       (M, D, N) ≠ ((∅ : Finset String), (∅ : Finset String),
         (∅ : Finset String)) →
       (∀ i ∈ inputs, (i.1).email_alert = true ∧
          changeFinsets baseline startup.exclude startup.monitor_path
            i.2.1 = (M, D, N)) →
       emailAttemptCount
         (runMonitor startup baseline inputs initialAlertState).2 = 1) ∧
    (∀ (startup : Config) (baseline : Snapshot) (c1 c2 c3 : Config)
       (t1 t2 t3 : FSTree) (e1 e2 e3 : EmailEnv),
       c1.email_alert = true → c2.email_alert = true →
       c3.email_alert = true →
       changeFinsets baseline startup.exclude startup.monitor_path t1 ≠
         ((∅ : Finset String), (∅ : Finset String), (∅ : Finset String)) →
       changeFinsets baseline startup.exclude startup.monitor_path t2 ≠
         changeFinsets baseline startup.exclude startup.monitor_path t1 →
       changeFinsets baseline startup.exclude startup.monitor_path t3 =
         changeFinsets baseline startup.exclude startup.monitor_path t1 →
       emailAttemptCount
         (runMonitor startup baseline
           [(c1, t1, e1), (c2, t2, e2), (c3, t3, e3)]
           initialAlertState).2 = 3) := by
  constructor
  · intro startup baseline inputs M D N hni hMDN hall
    cases inputs with
    | nil => exact absurd rfl hni
    | cons i rest =>
      obtain ⟨cfg, tree, env⟩ := i
      have h1 := hall _ (List.mem_cons_self _ _)
      have hcond : cfg.email_alert = true ∧
          changeFinsets baseline startup.exclude startup.monitor_path tree ≠
            lastTriple initialAlertState := by
        refine ⟨h1.1, ?_⟩
        rw [h1.2, lastTriple_initial]
        exact hMDN
      have hcount := monitorCycle_emailCount startup baseline cfg tree env
        initialAlertState
      rw [if_pos hcond] at hcount
      have htrip := monitorCycle_lastTriple startup baseline cfg tree env
        initialAlertState
      rw [if_pos hcond] at htrip
      have hrest := run_suppressed startup baseline rest M D N
        (monitorCycle startup baseline cfg tree env initialAlertState).1
        (htrip.trans h1.2)
        (fun j hj => (hall j (List.mem_cons_of_mem _ hj)).2)
      simp only [runMonitor]
      rw [emailAttemptCount_append, hcount, hrest.1]
  · intro startup baseline c1 c2 c3 t1 t2 t3 e1 e2 e3 h1 h2 h3 hne1 hne21 h31
    have hcond1 : c1.email_alert = true ∧
        changeFinsets baseline startup.exclude startup.monitor_path t1 ≠
          lastTriple initialAlertState := by
      refine ⟨h1, ?_⟩
      rw [lastTriple_initial]
      exact hne1
    have hc1 := monitorCycle_emailCount startup baseline c1 t1 e1
      initialAlertState
    have ht1 := monitorCycle_lastTriple startup baseline c1 t1 e1
      initialAlertState
    rw [if_pos hcond1] at hc1 ht1
    set st1 := (monitorCycle startup baseline c1 t1 e1 initialAlertState).1
    have hcond2 : c2.email_alert = true ∧
        changeFinsets baseline startup.exclude startup.monitor_path t2 ≠
          lastTriple st1 := by
      refine ⟨h2, ?_⟩
      rw [ht1]
      exact hne21
    have hc2 := monitorCycle_emailCount startup baseline c2 t2 e2 st1
    have ht2 := monitorCycle_lastTriple startup baseline c2 t2 e2 st1
    rw [if_pos hcond2] at hc2 ht2
    set st2 := (monitorCycle startup baseline c2 t2 e2 st1).1
    have hcond3 : c3.email_alert = true ∧
        changeFinsets baseline startup.exclude startup.monitor_path t3 ≠
          lastTriple st2 := by
      refine ⟨h3, ?_⟩
      rw [ht2, h31]
      exact fun h => hne21 h.symm
    have hc3 := monitorCycle_emailCount startup baseline c3 t3 e3 st2
    rw [if_pos hcond3] at hc3
    simp only [runMonitor]
    rw [emailAttemptCount_append, emailAttemptCount_append,
      emailAttemptCount_append, emailAttemptCount_nil, hc1, hc2, hc3]

/-- A concrete email-enabled configuration. -/
def cfgEmailOn : Config :=
  ⟨"/mon", "data/baseline.json", "data/report.json",
    "data/ai_risk_report.json", [], 10, true, true, false⟩

/-- C6 counterexample: with the email channel enabled on every cycle and
change sets S1, S2, S1 (S1 non-empty, S2 ≠ S1), the notifier is invoked
three times, not twice: the deduplicator also notifies for the initial
S1. -/
theorem revert_notifies_three_times :
    emailAttemptCount
        (runMonitor cfgEmailOn []
          [(cfgEmailOn, .node [("x", some ⟨"h1", 1, "644", 1⟩)] .fnil, .ok),
           (cfgEmailOn, .node [("y", some ⟨"h2", 1, "644", 1⟩)] .fnil, .ok),
           (cfgEmailOn, .node [("x", some ⟨"h1", 1, "644", 1⟩)] .fnil, .ok)]
          initialAlertState).2 = 3 ∧
    cfgEmailOn.email_alert = true ∧
    changeFinsets [] cfgEmailOn.exclude cfgEmailOn.monitor_path
        (.node [("x", some ⟨"h1", 1, "644", 1⟩)] .fnil) ≠
      changeFinsets [] cfgEmailOn.exclude cfgEmailOn.monitor_path
        (.node [("y", some ⟨"h2", 1, "644", 1⟩)] .fnil) ∧
    changeFinsets [] cfgEmailOn.exclude cfgEmailOn.monitor_path
        (.node [("x", some ⟨"h1", 1, "644", 1⟩)] .fnil) ≠
      ((∅ : Finset String), (∅ : Finset String), (∅ : Finset String)) := by
  decide

/-- C10: when the email channel is enabled and the current change sets
differ from the last notified ones, the cycle makes exactly one send
attempt whose outcome is whatever the environment dictates (missing
credentials and transport errors are swallowed by `send_email_alert`),
the stored last-notified sets are updated unconditionally afterwards, and
a following cycle whose change sets are set-equal makes no attempt — a
failed alert is never retried. -/
theorem failed_send_updates_dedup_state
    (startup : Config) (baseline : Snapshot) (cfg cfg2 : Config)
    (t1 t2 : FSTree) (env1 env2 : EmailEnv) (st : AlertState)
    (hen : cfg.email_alert = true) (hen2 : cfg2.email_alert = true)
    (hdiff : changeFinsets baseline startup.exclude startup.monitor_path
      t1 ≠ lastTriple st)
    (hsame : changeFinsets baseline startup.exclude startup.monitor_path
        t2 =
      changeFinsets baseline startup.exclude startup.monitor_path t1) :
    emailEffects (monitorCycle startup baseline cfg t1 env1 st).2 =
      [.emailAttempt
        (alert_body
          (cycleDiff baseline startup.exclude startup.monitor_path t1).1
          (cycleDiff baseline startup.exclude startup.monitor_path t1).2.1
          (cycleDiff baseline startup.exclude startup.monitor_path t1).2.2)
        (send_email_alert env1
          (alert_body
            (cycleDiff baseline startup.exclude startup.monitor_path t1).1
            (cycleDiff baseline startup.exclude startup.monitor_path t1).2.1
            (cycleDiff baseline startup.exclude startup.monitor_path
              t1).2.2))] ∧
    lastTriple (monitorCycle startup baseline cfg t1 env1 st).1 =
      changeFinsets baseline startup.exclude startup.monitor_path t1 ∧
    emailAttemptCount
      (monitorCycle startup baseline cfg2 t2 env2
        (monitorCycle startup baseline cfg t1 env1 st).1).2 = 0 := by
  have he := monitorCycle_emailEffects startup baseline cfg t1 env1 st
  rw [if_pos ⟨hen, hdiff⟩] at he
  have ht := monitorCycle_lastTriple startup baseline cfg t1 env1 st
  rw [if_pos ⟨hen, hdiff⟩] at ht
  refine ⟨he, ht, ?_⟩
  have hc2 := monitorCycle_emailCount startup baseline cfg2 t2 env2
    (monitorCycle startup baseline cfg t1 env1 st).1
  rw [if_neg ?_] at hc2
  · exact hc2
  · rintro ⟨-, hne⟩
    exact hne (by rw [hsame, ht])

/-- Witness for C10: a concrete first cycle in an environment with
missing email credentials (the send fails), followed by a set-equal
cycle that is suppressed. -/
theorem failed_send_updates_dedup_state_witness :
    emailEffects
        (monitorCycle cfgEmailOn [] cfgEmailOn
          (.node [("x", some ⟨"h1", 1, "644", 1⟩)] .fnil) .missingCreds
          initialAlertState).2 =
      [.emailAttempt
        (alert_body
          (cycleDiff [] cfgEmailOn.exclude cfgEmailOn.monitor_path
            (.node [("x", some ⟨"h1", 1, "644", 1⟩)] .fnil)).1
          (cycleDiff [] cfgEmailOn.exclude cfgEmailOn.monitor_path
            (.node [("x", some ⟨"h1", 1, "644", 1⟩)] .fnil)).2.1
          (cycleDiff [] cfgEmailOn.exclude cfgEmailOn.monitor_path
            (.node [("x", some ⟨"h1", 1, "644", 1⟩)] .fnil)).2.2)
        (send_email_alert .missingCreds
          (alert_body
            (cycleDiff [] cfgEmailOn.exclude cfgEmailOn.monitor_path
              (.node [("x", some ⟨"h1", 1, "644", 1⟩)] .fnil)).1
            (cycleDiff [] cfgEmailOn.exclude cfgEmailOn.monitor_path
              (.node [("x", some ⟨"h1", 1, "644", 1⟩)] .fnil)).2.1
            (cycleDiff [] cfgEmailOn.exclude cfgEmailOn.monitor_path
              (.node [("x", some ⟨"h1", 1, "644", 1⟩)] .fnil)).2.2))] ∧
    lastTriple
        (monitorCycle cfgEmailOn [] cfgEmailOn
          (.node [("x", some ⟨"h1", 1, "644", 1⟩)] .fnil) .missingCreds
          initialAlertState).1 =
      changeFinsets [] cfgEmailOn.exclude cfgEmailOn.monitor_path
        (.node [("x", some ⟨"h1", 1, "644", 1⟩)] .fnil) ∧
    emailAttemptCount
      (monitorCycle cfgEmailOn [] cfgEmailOn
        (.node [("x", some ⟨"h1", 1, "644", 1⟩)] .fnil) .ok
        (monitorCycle cfgEmailOn [] cfgEmailOn
          (.node [("x", some ⟨"h1", 1, "644", 1⟩)] .fnil) .missingCreds
          initialAlertState).1).2 = 0 :=
  failed_send_updates_dedup_state cfgEmailOn [] cfgEmailOn cfgEmailOn
    (.node [("x", some ⟨"h1", 1, "644", 1⟩)] .fnil)
    (.node [("x", some ⟨"h1", 1, "644", 1⟩)] .fnil) .missingCreds .ok
    initialAlertState rfl rfl (by decide) rfl

end FIM
